import Mathlib

/-! Verification of the glrs vertex-input / indirect-draw core.

Shallow embedding of `src/vertex.rs` and `src/commands.rs`:
pure data (attribute registry, vertex formats, draw-command records) becomes
plain Lean data; the stateful `VertexArray` methods become functions from the
pre-state to a post-state together with the list of GPU (OpenGL) calls they
issue and a success flag (`false` models a Rust panic: an `assert_eq!` failure
or an out-of-range index).  Machine integers (`GLuint`, `GLint`, `GLenum`,
`u32`, `usize`) are modelled as `Nat`: the code only stores and copies them,
never performs wrapping arithmetic on them.
-/

namespace Glrs

/-! OpenGL enum constants (from the `gl` crate) -/

def GL_UNSIGNED_BYTE : Nat := 0x1401

def GL_UNSIGNED_INT : Nat := 0x1405

def GL_FLOAT : Nat := 0x1406

/-! Attribute Type Registry (`vertex.rs` lines 54-90)

The supported host types: the three scalars with an `implement_attribute!`
line, nalgebra vectors `VectorN<S, D>` over a supported scalar, quaternions
`Quaternion<S>` over a supported scalar, and the `Unit<T>` wrapper around any
supported type. -/

inductive ScalarType where
  | u8 : ScalarType
  | u32 : ScalarType
  | f32 : ScalarType
deriving DecidableEq, Repr

inductive HostType where
  | scalar : ScalarType → HostType
  | vectorN : ScalarType → Nat → HostType
  | quaternion : ScalarType → HostType
  | unit : HostType → HostType
deriving DecidableEq, Repr

/-- `VertexAttribute::typ()` for the three scalar impls
(`implement_attribute!(u8, 1, gl::UNSIGNED_BYTE)` etc., lines 58-60). -/
def ScalarType.typ : ScalarType → Nat
  | .u8 => GL_UNSIGNED_BYTE
  | .u32 => GL_UNSIGNED_INT
  | .f32 => GL_FLOAT

/-- `VertexAttribute::size()`: 1 for each scalar impl; `D::try_to_usize()`
for `VectorN<N, D>` (line 66); 4 for `Quaternion<N>` (line 75); the inner
type's size for `Unit<T>` (line 84). -/
def VertexAttribute.size : HostType → Nat
  | .scalar _ => 1
  | .vectorN _ d => d
  | .quaternion _ => 4
  | .unit t => VertexAttribute.size t

/-- `VertexAttribute::typ()`: the scalar's enum for each scalar impl;
`N::typ()` for `VectorN<N, D>` (line 70) and `Quaternion<N>` (line 79); the
inner type's typ for `Unit<T>` (line 88). -/
def VertexAttribute.typ : HostType → Nat
  | .scalar s => s.typ
  | .vectorN s _ => s.typ
  | .quaternion s => s.typ
  | .unit t => VertexAttribute.typ t

/-! Vertex Format Descriptor (`vertex.rs` lines 15-34, 92-97) -/

structure VertexAttributeFormat where
  offset : Nat
  size : Nat
  typ : Nat
deriving DecidableEq, Repr

/-- The body of `implement_vertex!`: a record type is presented by the host
reflection layer as its ordered list of fields, each a pair of the field's
byte offset (`memoffset::offset_of!`) and its host type; `format()` maps each
field to `VertexAttributeFormat { offset, size, typ }` using the registry. -/
def Vertex.format (fields : List (Nat × HostType)) : List VertexAttributeFormat :=
  fields.map fun f =>
    { offset := f.1, size := VertexAttribute.size f.2, typ := VertexAttribute.typ f.2 }

/-! GPU call trace -/

/-- A shared reference to a GPU buffer resource (an `Rc<DynamicBuffer<[u8]>>`
as returned by `Allocator::buffer()`), identified by its native handle. -/
structure Buffer where
  handle : Nat
deriving DecidableEq, Repr

/-- One native GL call issued by the vertex-array code, with its arguments in
source order.  The `Bool` in `vertexArrayAttribFormat` is the `normalized`
flag (always `gl::FALSE` in the source). -/
inductive GLCall where
  | enableVertexArrayAttrib : Nat → Nat → GLCall
  | vertexArrayAttribFormat : Nat → Nat → Nat → Nat → Bool → Nat → GLCall
  | vertexArrayAttribBinding : Nat → Nat → Nat → GLCall
  | vertexArrayBindingDivisor : Nat → Nat → Nat → GLCall
  | vertexArrayElementBuffer : Nat → Nat → GLCall
  | vertexArrayVertexBuffer : Nat → Nat → Nat → Nat → Nat → GLCall
deriving DecidableEq, Repr

/-! VertexArray (`vertex.rs` lines 99-162) -/

structure VertexArray where
  handle : Nat
  formats : List (List VertexAttributeFormat)
  next_attrib : Nat
  element_buffer : Option Buffer
  vertex_buffers : List (Option Buffer)
deriving DecidableEq, Repr

/-- `VertexArray::new` (lines 108-119): fresh handle from the context, all
host-side state empty. -/
def VertexArray.new (handle : Nat) : VertexArray :=
  { handle := handle
    formats := []
    next_attrib := 0
    element_buffer := none
    vertex_buffers := [] }

/-- The `for` loop of `enable_vertices` (lines 124-134): iterates over the
format, threading `next_attrib`; `formats_len` (the binding slot index) is
constant during the loop because `formats` is only pushed afterwards.  Each
iteration issues four GL calls, `VertexArrayBindingDivisor` included, because
that call stands inside the loop body in the source.  Returns the final
`next_attrib` and the calls in issue order. -/
def enableVerticesLoop (h slot divisor next : Nat) :
    List VertexAttributeFormat → Nat × List GLCall
  | [] => (next, [])
  | f :: rest =>
    let r := enableVerticesLoop h slot divisor (next + 1) rest
    (r.1,
      GLCall.enableVertexArrayAttrib h next ::
      GLCall.vertexArrayAttribFormat h next f.size f.typ false f.offset ::
      GLCall.vertexArrayAttribBinding h next slot ::
      GLCall.vertexArrayBindingDivisor h slot divisor ::
      r.2)

/-- `VertexArray::enable_vertices` (lines 121-138): run the loop, then push
the format onto `formats` and a `None` entry onto `vertex_buffers`. -/
def VertexArray.enable_vertices (va : VertexArray)
    (format : List VertexAttributeFormat) (divisor : Nat) :
    VertexArray × List GLCall :=
  let r := enableVerticesLoop va.handle va.formats.length divisor va.next_attrib format
  ({ va with
      formats := va.formats ++ [format]
      next_attrib := r.1
      vertex_buffers := va.vertex_buffers ++ [none] },
    r.2)

/-- `VertexArray::element_buffer` (lines 140-144): one GL binding call, then
store the shared reference, replacing any previous one. -/
def VertexArray.set_element_buffer (va : VertexArray) (buf : Buffer) :
    VertexArray × List GLCall :=
  ({ va with element_buffer := some buf },
    [GLCall.vertexArrayElementBuffer va.handle buf.handle])

/-- `VertexArray::vertex_buffer` (lines 146-153).  The first statement is
`assert_eq!(V::format(), self.formats.borrow()[binding])`: an out-of-range
`binding` or a format mismatch panics there, before any GL call or any write,
so those arms return the entry state with an empty trace and `false`.  On a
passed assert the GL binding call (handle, slot, buffer handle, offset 0,
stride `size_of::<V>()`) is issued and then `vertex_buffers[binding]` is
written; an out-of-range write into `vertex_buffers` would panic after the GL
call (it cannot happen in states reachable through the API, where the two
tables have equal length).  `fmt` and `vsize` stand for `V::format()` and
`size_of::<V>()` of the buffer's record type `V`. -/
def VertexArray.set_vertex_buffer (va : VertexArray)
    (fmt : List VertexAttributeFormat) (vsize : Nat) (binding : Nat)
    (buf : Buffer) : VertexArray × List GLCall × Bool :=
  match va.formats[binding]? with
  | none => (va, [], false)
  | some registered =>
    if fmt = registered then
      let calls := [GLCall.vertexArrayVertexBuffer va.handle binding buf.handle 0 vsize]
      if binding < va.vertex_buffers.length then
        ({ va with vertex_buffers := va.vertex_buffers.set binding (some buf) },
          calls, true)
      else
        (va, calls, false)
    else
      (va, [], false)

/-! Operation sequences on a VertexArray -/

inductive Op where
  | enable : List VertexAttributeFormat → Nat → Op
  | setElement : Buffer → Op
  | setVertex : List VertexAttributeFormat → Nat → Nat → Buffer → Op
deriving DecidableEq, Repr

/-- One API call: post-state, GL calls issued, and whether it returned
normally (`false` = panic). -/
def step (va : VertexArray) : Op → VertexArray × List GLCall × Bool
  | .enable format divisor =>
    let r := va.enable_vertices format divisor
    (r.1, r.2, true)
  | .setElement buf =>
    let r := va.set_element_buffer buf
    (r.1, r.2, true)
  | .setVertex fmt vsize binding buf => va.set_vertex_buffer fmt vsize binding buf

/-- Run a sequence of API calls, stopping at the first panic; returns the
state at exit, the concatenated GL trace, and whether the whole sequence ran
normally. -/
def run (va : VertexArray) : List Op → VertexArray × List GLCall × Bool
  | [] => (va, [], true)
  | op :: rest =>
    let r := step va op
    if r.2.2 then
      let r2 := run r.1 rest
      (r2.1, r.2.1 ++ r2.2.1, r2.2.2)
    else
      (r.1, r.2.1, false)

/-! Draw Command Buffer (`commands.rs`) -/

structure DrawArraysIndirectCommand where
  count : Nat
  instance_count : Nat
  base_vertex : Nat
  base_instance : Nat
deriving DecidableEq, Repr

structure DrawElementsIndirectCommand where
  count : Nat
  instance_count : Nat
  first_index : Nat
  base_vertex : Nat
  base_instance : Nat
deriving DecidableEq, Repr

/-- `CommandBuffer<'a, C>`: a borrowed vertex array (modelled by its handle)
plus a `Vec<C>` of commands. -/
structure CommandBuffer (C : Type) where
  vao : Nat
  cmds : List C
deriving DecidableEq, Repr

/-- `CommandBuffer::new` (lines 17-19). -/
def CommandBuffer.new (C : Type) (vao : Nat) : CommandBuffer C :=
  { vao := vao, cmds := [] }

/-- `CommandBuffer::<DrawElementsIndirectCommand>::push` (lines 22-24):
`Vec::push` appends one record built from the arguments in declared field
order. -/
def CommandBuffer.push (cb : CommandBuffer DrawElementsIndirectCommand)
    (count instance_count first_index base_vertex base_instance : Nat) :
    CommandBuffer DrawElementsIndirectCommand :=
  { cb with
      cmds := cb.cmds ++
        [{ count := count, instance_count := instance_count,
           first_index := first_index, base_vertex := base_vertex,
           base_instance := base_instance }] }

/-- `CommandBuffer::<DrawArraysIndirectCommand>::push` (lines 27-29). -/
def CommandBuffer.pushArrays (cb : CommandBuffer DrawArraysIndirectCommand)
    (count instance_count base_vertex base_instance : Nat) :
    CommandBuffer DrawArraysIndirectCommand :=
  { cb with
      cmds := cb.cmds ++
        [{ count := count, instance_count := instance_count,
           base_vertex := base_vertex, base_instance := base_instance }] }

/-- `CommandBufferAbstract::handle` for `CommandBuffer` (lines 36-38):
literally `0`. -/
def CommandBuffer.handle {C : Type} (_cb : CommandBuffer C) : Nat := 0

/-- `CommandBufferAbstract::len` (lines 40-42). -/
def CommandBuffer.len {C : Type} (cb : CommandBuffer C) : Nat := cb.cmds.length

/-- `CommandBufferAbstract::indirect` (lines 44-46): `cmds.as_ptr()` exposes
the `Vec`'s backing storage, a contiguous block holding exactly the pushed
records in order; we model the block by its record contents. -/
def CommandBuffer.indirect {C : Type} (cb : CommandBuffer C) : List C := cb.cmds

/-! Auxiliary observers and example inputs -/

/-- Run a sequence of `enable_vertices` calls (format, divisor pairs),
keeping each call's GL trace separately. -/
def runEnables (va : VertexArray) :
    List (List VertexAttributeFormat × Nat) → VertexArray × List (List GLCall)
  | [] => (va, [])
  | c :: rest =>
    let r := va.enable_vertices c.1 c.2
    let r2 := runEnables r.1 rest
    (r2.1, r.2 :: r2.2)

/-- The attribute locations passed to `EnableVertexArrayAttrib` in a GL
trace, in issue order. -/
def enabledLocs : List GLCall → List Nat
  | [] => []
  | .enableVertexArrayAttrib _ a :: rest => a :: enabledLocs rest
  | .vertexArrayAttribFormat _ _ _ _ _ _ :: rest => enabledLocs rest
  | .vertexArrayAttribBinding _ _ _ :: rest => enabledLocs rest
  | .vertexArrayBindingDivisor _ _ _ :: rest => enabledLocs rest
  | .vertexArrayElementBuffer _ _ :: rest => enabledLocs rest
  | .vertexArrayVertexBuffer _ _ _ _ _ :: rest => enabledLocs rest

/-- Recognizer for `VertexArrayBindingDivisor` calls in a trace. -/
def isDivisorCall : GLCall → Bool
  | .vertexArrayBindingDivisor _ _ _ => true
  | _ => false

/-- Example vertex format with two attributes (e.g. two `Vector3<f32>`
fields at offsets 0 and 12). -/
def exFmt2 : List VertexAttributeFormat :=
  [{ offset := 0, size := 3, typ := GL_FLOAT },
   { offset := 12, size := 3, typ := GL_FLOAT }]

/-- Example vertex format with a single attribute. -/
def exFmt1 : List VertexAttributeFormat :=
  [{ offset := 0, size := 1, typ := GL_UNSIGNED_INT }]

/-! Helper lemmas -/

theorem enableVerticesLoop_fst (h slot divisor : Nat) :
    ∀ (fmt : List VertexAttributeFormat) (next : Nat),
      (enableVerticesLoop h slot divisor next fmt).1 = next + fmt.length
  | [], _ => rfl
  | f :: rest, next => by
    simp [enableVerticesLoop, enableVerticesLoop_fst h slot divisor rest (next + 1)]
    omega

theorem enableVerticesLoop_snd (h slot divisor : Nat) :
    ∀ (fmt : List VertexAttributeFormat) (next : Nat),
      (enableVerticesLoop h slot divisor next fmt).2 =
        ((List.range' next fmt.length).zip fmt).flatMap fun p =>
          [GLCall.enableVertexArrayAttrib h p.1,
           GLCall.vertexArrayAttribFormat h p.1 p.2.size p.2.typ false p.2.offset,
           GLCall.vertexArrayAttribBinding h p.1 slot,
           GLCall.vertexArrayBindingDivisor h slot divisor]
  | [], _ => rfl
  | f :: rest, next => by
    simp [enableVerticesLoop, List.range', enableVerticesLoop_snd h slot divisor rest (next + 1)]

theorem enabledLocs_loop (h slot divisor : Nat) :
    ∀ (fmt : List VertexAttributeFormat) (next : Nat),
      enabledLocs (enableVerticesLoop h slot divisor next fmt).2 =
        List.range' next fmt.length
  | [], _ => rfl
  | f :: rest, next => by
    simp [enableVerticesLoop, enabledLocs, List.range',
      enabledLocs_loop h slot divisor rest (next + 1)]

theorem enable_vertices_next_attrib (va : VertexArray)
    (format : List VertexAttributeFormat) (divisor : Nat) :
    (va.enable_vertices format divisor).1.next_attrib = va.next_attrib + format.length := by
  simp [VertexArray.enable_vertices, enableVerticesLoop_fst]

theorem enabledLocs_enable_vertices (va : VertexArray)
    (format : List VertexAttributeFormat) (divisor : Nat) :
    enabledLocs (va.enable_vertices format divisor).2 =
      List.range' va.next_attrib format.length := by
  simp [VertexArray.enable_vertices, enabledLocs_loop]

theorem enable_vertices_formats (va : VertexArray)
    (format : List VertexAttributeFormat) (divisor : Nat) :
    (va.enable_vertices format divisor).1.formats = va.formats ++ [format] := rfl

theorem enable_vertices_vertex_buffers (va : VertexArray)
    (format : List VertexAttributeFormat) (divisor : Nat) :
    (va.enable_vertices format divisor).1.vertex_buffers = va.vertex_buffers ++ [none] := rfl

theorem runEnables_next_attrib :
    ∀ (calls : List (List VertexAttributeFormat × Nat)) (va : VertexArray),
      (runEnables va calls).1.next_attrib =
        va.next_attrib + (calls.map fun c => c.1.length).sum
  | [], va => by simp [runEnables]
  | c :: rest, va => by
    simp [runEnables, runEnables_next_attrib rest, enable_vertices_next_attrib]
    omega

theorem runEnables_formats_length :
    ∀ (calls : List (List VertexAttributeFormat × Nat)) (va : VertexArray),
      (runEnables va calls).1.formats.length = va.formats.length + calls.length
  | [], va => by simp [runEnables]
  | c :: rest, va => by
    simp [runEnables, runEnables_formats_length rest, enable_vertices_formats]
    omega

theorem runEnables_traces :
    ∀ (calls : List (List VertexAttributeFormat × Nat)) (va : VertexArray) (i : Nat),
      ((runEnables va calls).2[i]?).map enabledLocs =
        (calls[i]?).map fun c =>
          List.range' (va.next_attrib + ((calls.take i).map fun x => x.1.length).sum)
            c.1.length
  | [], va, i => by simp [runEnables]
  | c :: rest, va, 0 => by
    simp [runEnables, enabledLocs_enable_vertices]
  | c :: rest, va, i + 1 => by
    have ih := runEnables_traces rest ((va.enable_vertices c.1 c.2).1) i
    simp [runEnables, enable_vertices_next_attrib] at ih ⊢
    rw [ih]
    cases h : rest[i]? with
    | none => simp
    | some x => simp [Nat.add_assoc]

theorem set_vertex_buffer_lengths (va : VertexArray)
    (fmt : List VertexAttributeFormat) (vsize binding : Nat) (buf : Buffer) :
    (va.set_vertex_buffer fmt vsize binding buf).1.formats.length = va.formats.length ∧
    (va.set_vertex_buffer fmt vsize binding buf).1.vertex_buffers.length =
      va.vertex_buffers.length := by
  unfold VertexArray.set_vertex_buffer
  split
  · simp
  · split
    · split
      · simp
      · simp
    · simp

theorem step_lengths (va : VertexArray) (op : Op)
    (h : va.formats.length = va.vertex_buffers.length) :
    (step va op).1.formats.length = (step va op).1.vertex_buffers.length := by
  cases op with
  | enable f d =>
    simp [step, enable_vertices_formats, enable_vertices_vertex_buffers, h]
  | setElement b => simpa [step, VertexArray.set_element_buffer] using h
  | setVertex f sz i b =>
    have hl := set_vertex_buffer_lengths va f sz i b
    simp [step, hl.1, hl.2, h]

theorem run_lengths :
    ∀ (ops : List Op) (va : VertexArray),
      va.formats.length = va.vertex_buffers.length →
      (run va ops).1.formats.length = (run va ops).1.vertex_buffers.length
  | [], _, h => h
  | op :: rest, va, h => by
    have hstep := step_lengths va op h
    by_cases hok : (step va op).2.2 = true
    · simp [run, hok, run_lengths rest (step va op).1 hstep]
    · simp [run, hok]
      exact hstep

/-! The claims -/

/-- C3: the Attribute Type Registry maps every supported host type as
documented: 8-bit unsigned integer to (1, unsigned-byte), 32-bit unsigned
integer to (1, unsigned-int), 32-bit float to (1, float); a fixed-size vector
of dimension D over supported scalar S to (D, typeof S); a quaternion over
scalar S to (4, typeof S); and the `Unit` wrapper over inner type T to
exactly T's own mapping. -/
theorem registry_matches_documented_table :
    (VertexAttribute.size (.scalar .u8) = 1 ∧
      VertexAttribute.typ (.scalar .u8) = GL_UNSIGNED_BYTE) ∧
    (VertexAttribute.size (.scalar .u32) = 1 ∧
      VertexAttribute.typ (.scalar .u32) = GL_UNSIGNED_INT) ∧
    (VertexAttribute.size (.scalar .f32) = 1 ∧
      VertexAttribute.typ (.scalar .f32) = GL_FLOAT) ∧
    (∀ (s : ScalarType) (d : Nat),
      VertexAttribute.size (.vectorN s d) = d ∧
      VertexAttribute.typ (.vectorN s d) = VertexAttribute.typ (.scalar s)) ∧
    (∀ s : ScalarType,
      VertexAttribute.size (.quaternion s) = 4 ∧
      VertexAttribute.typ (.quaternion s) = VertexAttribute.typ (.scalar s)) ∧
    (∀ t : HostType,
      VertexAttribute.size (.unit t) = VertexAttribute.size t ∧
      VertexAttribute.typ (.unit t) = VertexAttribute.typ t) :=
  ⟨⟨rfl, rfl⟩, ⟨rfl, rfl⟩, ⟨rfl, rfl⟩,
    fun _ _ => ⟨rfl, rfl⟩, fun _ => ⟨rfl, rfl⟩, fun _ => ⟨rfl, rfl⟩⟩

/-- C4: for a record type with k declared fields, `format()` yields exactly
k entries, in field-declaration order, each carrying the field's own byte
offset and the registry mapping of its host type.  Determinism is by
construction: `Vertex.format` is a pure function of the field layout, and the
host reflection layer presents a fixed layout per record type. -/
theorem format_has_one_entry_per_field (fields : List (Nat × HostType)) :
    (Vertex.format fields).length = fields.length ∧
    ∀ i : Nat,
      (Vertex.format fields)[i]? =
        (fields[i]?).map fun f =>
          { offset := f.1, size := VertexAttribute.size f.2,
            typ := VertexAttribute.typ f.2 } := by
  constructor
  · simp [Vertex.format]
  · intro i
    simp [Vertex.format]

/-- C9: `handle()` on the command-buffer abstraction returns the placeholder
0 for every command buffer, whatever sequence of operations produced it. -/
theorem command_buffer_handle_is_zero {C : Type} (cb : CommandBuffer C) :
    cb.handle = 0 := rfl

/-- C6: each `push` on an indexed command buffer appends exactly one record
built from the pushed values in declared field order, preserving earlier
pushes; after pushing (10,1,0,0,0) then (20,2,5,3,1), `len()` is 2 and the
contiguous block exposed by `indirect()` holds exactly those two records in
that order. -/
theorem push_appends_one_record :
    (∀ (cb : CommandBuffer DrawElementsIndirectCommand) (c ic fi bv bi : Nat),
      (cb.push c ic fi bv bi).cmds =
        cb.cmds ++
          [{ count := c, instance_count := ic, first_index := fi,
             base_vertex := bv, base_instance := bi }]) ∧
    (((CommandBuffer.new DrawElementsIndirectCommand 0).push 10 1 0 0 0).push
        20 2 5 3 1).len = 2 ∧
    (((CommandBuffer.new DrawElementsIndirectCommand 0).push 10 1 0 0 0).push
        20 2 5 3 1).indirect =
      [{ count := 10, instance_count := 1, first_index := 0, base_vertex := 0,
         base_instance := 0 },
       { count := 20, instance_count := 2, first_index := 5, base_vertex := 3,
         base_instance := 1 }] :=
  ⟨fun _ _ _ _ _ _ => rfl, rfl, rfl⟩

/-- C1: `vertex_buffer(slot, buffer)` returns normally iff the slot exists
and `V::format()` equals the format registered for that slot (structural
equality of the offset/size/typ lists); a missing slot or any differing
format makes the leading `assert_eq!` (or the slot index itself) panic.  The
hypothesis is the C5 invariant, which holds in every state reachable through
the API. -/
theorem set_vertex_buffer_ok_iff_format_matches (va : VertexArray)
    (fmt : List VertexAttributeFormat) (vsize binding : Nat) (buf : Buffer)
    (hlen : va.formats.length = va.vertex_buffers.length) :
    (va.set_vertex_buffer fmt vsize binding buf).2.2 = true ↔
      va.formats[binding]? = some fmt := by
  unfold VertexArray.set_vertex_buffer
  cases h : va.formats[binding]? with
  | none => simp
  | some registered =>
    by_cases hf : fmt = registered
    · have hb : binding < va.formats.length := by
        by_contra hb
        rw [List.getElem?_eq_none (Nat.le_of_not_lt hb)] at h
        exact Option.noConfusion h
      rw [hlen] at hb
      simp [hf, hb]
    · simp [hf, eq_comm]

theorem set_vertex_buffer_ok_iff_witness :
    ((((VertexArray.new 1).enable_vertices exFmt1 0).1.set_vertex_buffer exFmt1 4 0
      { handle := 7 }).2.2 = true) ∧
    ((((VertexArray.new 1).enable_vertices exFmt1 0).1.set_vertex_buffer exFmt2 4 0
      { handle := 7 }).2.2 = false) := by
  constructor
  · exact (set_vertex_buffer_ok_iff_format_matches
      ((VertexArray.new 1).enable_vertices exFmt1 0).1 exFmt1 4 0 { handle := 7 }
      (by decide)).mpr (by decide)
  · have := set_vertex_buffer_ok_iff_format_matches
      ((VertexArray.new 1).enable_vertices exFmt1 0).1 exFmt2 4 0 { handle := 7 }
      (by decide)
    revert this
    decide

/-- C10: when `vertex_buffer` fails its format check or is given a slot with
no registered format, the `assert_eq!` panics before any GL call and before
any write: the post-state equals the pre-state in every component and the GL
trace is empty. -/
theorem set_vertex_buffer_failure_is_pure (va : VertexArray)
    (fmt : List VertexAttributeFormat) (vsize binding : Nat) (buf : Buffer)
    (h : ¬ va.formats[binding]? = some fmt) :
    (va.set_vertex_buffer fmt vsize binding buf).1 = va ∧
    (va.set_vertex_buffer fmt vsize binding buf).2.1 = [] ∧
    (va.set_vertex_buffer fmt vsize binding buf).2.2 = false := by
  have : va.set_vertex_buffer fmt vsize binding buf = (va, [], false) := by
    unfold VertexArray.set_vertex_buffer
    cases hr : va.formats[binding]? with
    | none => rfl
    | some registered =>
      have hf : ¬ fmt = registered := by
        intro heq
        exact h (by rw [hr, heq])
      simp [hf]
  rw [this]
  exact ⟨rfl, rfl, rfl⟩

theorem set_vertex_buffer_failure_witness :
    ((VertexArray.new 1).set_vertex_buffer exFmt1 4 0 { handle := 7 }).1 =
      VertexArray.new 1 ∧
    ((VertexArray.new 1).set_vertex_buffer exFmt1 4 0 { handle := 7 }).2.1 = [] ∧
    ((VertexArray.new 1).set_vertex_buffer exFmt1 4 0 { handle := 7 }).2.2 = false :=
  set_vertex_buffer_failure_is_pure (VertexArray.new 1) exFmt1 4 0 { handle := 7 }
    (by decide)

/-- C7: on a successful `vertex_buffer` call the stride passed to the GL
binding call is `size_of::<V>()` (`vsize`), exactly one GL call is issued —
`VertexArrayVertexBuffer(handle, slot, buffer handle, offset 0, stride)` —
and the shared buffer reference is stored at the slot, replacing any previous
entry, so later inspection of the slot sees the new buffer. -/
theorem set_vertex_buffer_success_effects (va : VertexArray)
    (fmt : List VertexAttributeFormat) (vsize binding : Nat) (buf : Buffer)
    (hreg : va.formats[binding]? = some fmt)
    (hb : binding < va.vertex_buffers.length) :
    va.set_vertex_buffer fmt vsize binding buf =
      ({ va with vertex_buffers := va.vertex_buffers.set binding (some buf) },
        [GLCall.vertexArrayVertexBuffer va.handle binding buf.handle 0 vsize],
        true) ∧
    (va.set_vertex_buffer fmt vsize binding buf).1.vertex_buffers[binding]? =
      some (some buf) := by
  have heq : va.set_vertex_buffer fmt vsize binding buf =
      ({ va with vertex_buffers := va.vertex_buffers.set binding (some buf) },
        [GLCall.vertexArrayVertexBuffer va.handle binding buf.handle 0 vsize],
        true) := by
    unfold VertexArray.set_vertex_buffer
    rw [hreg]
    simp [hb]
  refine ⟨heq, ?_⟩
  rw [heq]
  exact List.getElem?_set_eq_of_lt (some buf) hb

theorem set_vertex_buffer_success_witness :
    (((VertexArray.new 1).enable_vertices exFmt1 0).1.set_vertex_buffer exFmt1 4 0
        { handle := 7 }).1.vertex_buffers[0]? = some (some { handle := 7 }) :=
  (set_vertex_buffer_success_effects
    ((VertexArray.new 1).enable_vertices exFmt1 0).1 exFmt1 4 0 { handle := 7 }
    (by decide) (by decide)).2

/-- C2: starting from a fresh `VertexArray`, after `enable_vertices` has run
for each of the n formats in `calls`, the flat counter `next_attrib` equals
the sum of the format sizes, the registered-formats list has exactly n
entries, and the attribute locations enabled by the i-th call are exactly
`List.range' s k` where k is that format's size and s the sum of the sizes
of all earlier calls — a contiguous block that strictly follows every
previously assigned location. -/
theorem enable_vertices_counter_and_locations (h0 : Nat)
    (calls : List (List VertexAttributeFormat × Nat)) :
    (runEnables (VertexArray.new h0) calls).1.next_attrib =
      (calls.map fun c => c.1.length).sum ∧
    (runEnables (VertexArray.new h0) calls).1.formats.length = calls.length ∧
    ∀ i : Nat,
      ((runEnables (VertexArray.new h0) calls).2[i]?).map enabledLocs =
        (calls[i]?).map fun c =>
          List.range' (((calls.take i).map fun x => x.1.length).sum) c.1.length := by
  refine ⟨?_, ?_, fun i => ?_⟩
  · simpa [VertexArray.new] using runEnables_next_attrib calls (VertexArray.new h0)
  · simpa [VertexArray.new] using runEnables_formats_length calls (VertexArray.new h0)
  · simpa [VertexArray.new] using runEnables_traces calls (VertexArray.new h0) i

/-- C5: the registered-formats list and the vertex-buffer-reference table
always have the same length: both start empty at construction, each
`enable_vertices` appends exactly one entry to each, `element_buffer` and
`vertex_buffer` change neither length, and along every operation sequence
from a fresh array the two lengths agree. -/
theorem formats_and_vertex_buffers_lengths_agree :
    (∀ h0 : Nat,
      (VertexArray.new h0).formats = [] ∧ (VertexArray.new h0).vertex_buffers = []) ∧
    (∀ (va : VertexArray) (f : List VertexAttributeFormat) (d : Nat),
      (va.enable_vertices f d).1.formats.length = va.formats.length + 1 ∧
      (va.enable_vertices f d).1.vertex_buffers.length = va.vertex_buffers.length + 1) ∧
    (∀ (va : VertexArray) (b : Buffer),
      (va.set_element_buffer b).1.formats.length = va.formats.length ∧
      (va.set_element_buffer b).1.vertex_buffers.length = va.vertex_buffers.length) ∧
    (∀ (va : VertexArray) (f : List VertexAttributeFormat) (sz i : Nat) (b : Buffer),
      (va.set_vertex_buffer f sz i b).1.formats.length = va.formats.length ∧
      (va.set_vertex_buffer f sz i b).1.vertex_buffers.length =
        va.vertex_buffers.length) ∧
    (∀ (h0 : Nat) (ops : List Op),
      (run (VertexArray.new h0) ops).1.formats.length =
        (run (VertexArray.new h0) ops).1.vertex_buffers.length) := by
  refine ⟨fun _ => ⟨rfl, rfl⟩, fun va f d => ?_, fun _ _ => ⟨rfl, rfl⟩,
    set_vertex_buffer_lengths, fun h0 ops => run_lengths ops _ rfl⟩
  simp [enable_vertices_formats, enable_vertices_vertex_buffers]

/-- C8 counterexample: `enable_vertices` with the two-attribute format
`exFmt2` issues two `VertexArrayBindingDivisor` calls, not exactly one: the
divisor call stands inside the per-attribute loop in the source. -/
theorem enable_vertices_divisor_call_per_attribute :
    ((VertexArray.new 1).enable_vertices exFmt2 0).2.countP isDivisorCall = 2 ∧
    ¬ ((VertexArray.new 1).enable_vertices exFmt2 0).2.countP isDivisorCall = 1 := by
  decide

/-- C8 (amended): the GL trace of `enable_vertices` is, for each attribute
in order (locations counting up from `next_attrib`), the four calls: enable
the location, configure its size/typ/offset, bind the location to the new
slot index (the registered-formats length at entry), and set that slot's
binding divisor — so the divisor call is issued once per attribute (all with
the same slot and divisor), not exactly once per slot. -/
theorem enable_vertices_gl_trace (va : VertexArray)
    (format : List VertexAttributeFormat) (divisor : Nat) :
    (va.enable_vertices format divisor).2 =
      ((List.range' va.next_attrib format.length).zip format).flatMap fun p =>
        [GLCall.enableVertexArrayAttrib va.handle p.1,
         GLCall.vertexArrayAttribFormat va.handle p.1 p.2.size p.2.typ false p.2.offset,
         GLCall.vertexArrayAttribBinding va.handle p.1 va.formats.length,
         GLCall.vertexArrayBindingDivisor va.handle va.formats.length divisor] := by
  simp [VertexArray.enable_vertices, enableVerticesLoop_snd]

end Glrs
